import Mathlib

/-!
Shallow embedding of the core game-logic of the `fallout` rules-engine
(`src/cmd/templates/scripts/fallout/*.py`): effective-attribute projection,
the unified 2d20 skill-check resolver, the exploration/combat turn state
machine, status-effect ticking, the encounter budget gate and player damage
application.  Randomness (`random.randint` via `roll_dice`) is injected as
explicit integer inputs; JSON persistence (`save_state`) is modelled by the
functions returning the successor state, and an error return models the
Python early `return error(...)` path in which no state is saved.  Python
dicts are modelled as insertion-ordered association lists, matching the
iteration order the source relies on.
-/

set_option maxRecDepth 4000

namespace Fallout

/-- Association-list lookup, modelling Python `d.get(k, default)` for the
string-keyed dicts of the source. -/
def alGet (m : List (String × Int)) (k : String) (d : Int) : Int :=
  match m.find? (fun kv => kv.1 == k) with
  | some kv => kv.2
  | none => d

/-- Association-list update, modelling Python `d[k] = v`: an existing key
keeps its position, a new key is appended (insertion order). -/
def alSet : List (String × Int) → String → Int → List (String × Int)
  | [], k, v => [(k, v)]
  | (k', v') :: rest, k, v =>
    if k' == k then (k, v) :: rest else (k', v') :: alSet rest k v

/-- A status effect attached to a player (`status_effects` entries).
`remaining = -1` means permanent; `stat_mods` are the drug/status attribute
deltas; `damage_reduction` is the Med-X style flat reduction. -/
structure Effect where
  name : String
  remaining : Int
  stat_mods : List (String × Int)
  damage_reduction : Int
  deriving Repr, DecidableEq

/-- A player record (the fields of `player.py`'s creation dict that the core
logic reads). -/
structure Player where
  hp : Int
  max_hp : Int
  rads : Int
  ap : Int
  special : List (String × Int)
  tag_skills : List String
  skills : List (String × Int)
  status_effects : List Effect
  deriving Repr, DecidableEq

/-- An enemy record (`enemy.py`). -/
structure Enemy where
  hp : Int
  max_hp : Int
  damage : String
  attack_skill : Int
  drops : String
  special : String
  status : String
  deriving Repr, DecidableEq

/-- The session state document (`world.py`'s `cmd_init` fields used by the
core logic).  `turn_actions` keeps only the marked actor names. -/
structure GameState where
  chapter : Int
  chapter_start_turn : Int
  turn : Int
  time_of_day : String
  weather : String
  mode : String
  combat_round : Int
  turn_actions : List String
  players : List (String × Player)
  enemies : List (String × Enemy)
  deriving Repr, DecidableEq

/-- Lookup of a player by name (`state["players"].get(name)`). -/
def findPlayer (ps : List (String × Player)) (n : String) : Option Player :=
  match ps.find? (fun kv => kv.1 == n) with
  | some kv => some kv.2
  | none => none

/-- Update of a player by name, position-preserving like a Python dict. -/
def setPlayer : List (String × Player) → String → Player → List (String × Player)
  | [], k, v => [(k, v)]
  | (k', v') :: rest, k, v =>
    if k' == k then (k, v) :: rest else (k', v') :: setPlayer rest k v

/-- The table `util.SPECIAL_ATTRS`. -/
def SPECIAL_ATTRS : List String := ["STR", "PER", "END", "CHA", "INT", "AGI", "LCK"]

/-- The table `util.ALL_SKILLS`. -/
def ALL_SKILLS : List String :=
  ["Barter", "Lockpick", "Medicine", "Melee", "Repair",
   "Science", "Small Guns", "Sneak", "Speech", "Survival"]

/-- The table `util.RAD_PENALTIES`: radiation penalty tiers, first match wins. -/
def RAD_PENALTIES : List (Int × List (String × Int)) :=
  [(1000, [("STR", -4), ("PER", -3), ("END", -4), ("AGI", -3), ("LCK", -3)]),
   ( 800, [("STR", -3), ("PER", -2), ("END", -3), ("AGI", -2)]),
   ( 600, [("STR", -2), ("PER", -1), ("END", -2), ("AGI", -1)]),
   ( 400, [("STR", -1), ("END", -1)]),
   ( 200, [("END", -1)])]

/-- The radiation tier the source's scan selects: the first entry of
`RAD_PENALTIES` whose threshold the player's rads meet (the loop `break`s
after one match). -/
def selectRadPenalty (rads : Int) : List (String × Int) :=
  match RAD_PENALTIES.find? (fun t => decide (t.1 ≤ rads)) with
  | some t => t.2
  | none => []

/-- Apply one delta list to an attribute dict
(`effective[attr] = effective.get(attr, 0) + mod` per entry). -/
def applyDeltas (m : List (String × Int)) (ds : List (String × Int)) :
    List (String × Int) :=
  ds.foldl (fun acc d => alSet acc d.1 (alGet acc d.1 0 + d.2)) m

/-- Apply every active status effect's `stat_mods`, in list order. -/
def applyEffectMods (m : List (String × Int)) (effs : List Effect) :
    List (String × Int) :=
  effs.foldl (fun acc e => applyDeltas acc e.stat_mods) m

/-- Final clamp of every effective attribute to [1, 10]. -/
def clampAll (m : List (String × Int)) : List (String × Int) :=
  m.map (fun kv => (kv.1, max 1 (min 10 kv.2)))

/-- Embedding of `util.get_effective_special` (the effective-value component; the
`modifiers` provenance dict returned alongside it in the source carries the
same deltas and is not needed by any claim).  Pure projection: the stored
base `special` is read, never written. -/
def get_effective_special (p : Player) : List (String × Int) :=
  clampAll (applyEffectMods (applyDeltas p.special (selectRadPenalty p.rads)) p.status_effects)

/-! ## Check resolver (`dice.py`) -/

/-- Result of `dice._evaluate_die` for one d20. -/
structure DieResult where
  successes : Int
  is_crit : Bool
  is_complication : Bool
  detail : String
  deriving Repr, DecidableEq

/-- Embedding of `dice._evaluate_die`: one d20 against a participant's target number. -/
def evaluate_die (die_value target : Int) (tag : Bool) (skill_val : Int) : DieResult :=
  if die_value = 1 then
    ⟨2, true, false, toString die_value ++ " -> Critical Success (+2)"⟩
  else if die_value = 20 then
    ⟨0, false, true, toString die_value ++ " -> Complication!"⟩
  else if die_value ≤ target then
    if tag ∧ die_value ≤ skill_val then
      ⟨2, true, false, toString die_value ++ " -> Success + Tag Crit (+1)"⟩
    else
      ⟨1, false, false, toString die_value ++ " -> Success"⟩
  else
    ⟨0, false, false, toString die_value ++ " -> Failure"⟩

/-- A resolved check participant (the dict built at the top of
`dice._evaluate_check`). -/
structure Participant where
  name : String
  attr_val : Int
  skill_val : Int
  tag : Bool
  target : Int
  deriving Repr, DecidableEq

/-- Resolve one participant from the state (effective attribute + raw skill,
tag membership).  Missing players cannot reach `_evaluate_check` — `cmd_check`
validates every name first — so an absent name resolves to a zeroed record. -/
def resolveParticipant (s : GameState) (attr skill pn : String) : Participant :=
  match findPlayer s.players pn with
  | some p =>
    let av := alGet (get_effective_special p) attr 0
    let sv := alGet p.skills skill 0
    ⟨pn, av, sv, p.tag_skills.contains skill, av + sv⟩
  | none => ⟨pn, 0, 0, false, 0⟩

/-- Stable insertion step for a descending sort by `target`: an element is
placed after strictly greater targets and before equal-or-smaller ones, so
ties keep input order — the behaviour of Python's stable
`participants.sort(key=..., reverse=True)`. -/
def insertDesc (p : Participant) : List Participant → List Participant
  | [] => [p]
  | q :: qs => if p.target < q.target then q :: insertDesc p qs else p :: q :: qs

/-- Stable descending sort by `target` (same output as the source's stable
sort with `reverse=True`). -/
def sortDesc : List Participant → List Participant
  | [] => []
  | p :: ps => insertDesc p (sortDesc ps)

/-- One helper's reported line in the check result (`helper_results` entry;
the `detail` string is the one from `_evaluate_die`). -/
structure HelperResult where
  name : String
  target : Int
  die : Int
  detail : String
  successes : Int
  counted : Bool
  deriving Repr, DecidableEq

/-- The leader-dice loop of `_evaluate_check`: accumulate successes, crits,
complications and detail strings over the leader's dice. -/
def evalLeaderDice (target : Int) (tag : Bool) (skill_val : Int) :
    List Int → Int × Int × Int × List String
  | [] => (0, 0, 0, [])
  | d :: ds =>
    let r := evaluate_die d target tag skill_val
    let prev := evalLeaderDice target tag skill_val ds
    (r.successes + prev.1, (if r.is_crit then 1 else 0) + prev.2.1,
     (if r.is_complication then 1 else 0) + prev.2.2.1, r.detail :: prev.2.2.2)

/-- The helper loop of `_evaluate_check`: each helper's one die is evaluated
against that helper's own target; its successes are added to the running
total only when the leader contributed (`leader_contributed`). -/
def evalHelpers (contributed : Bool) :
    List (Participant × Int) → Int × Int × Int × List HelperResult
  | [] => (0, 0, 0, [])
  | (h, d) :: rest =>
    let r := evaluate_die d h.target h.tag h.skill_val
    let prev := evalHelpers contributed rest
    ((if contributed then r.successes else 0) + prev.1,
     (if r.is_crit then 1 else 0) + prev.2.1,
     (if r.is_complication then 1 else 0) + prev.2.2.1,
     ⟨h.name, h.target, d, r.detail, r.successes, contributed⟩ :: prev.2.2.2)

/-- The payload `_evaluate_check` builds (the fields the claims read; the
narrative strings assembled around them are omitted). -/
structure CheckResult where
  mode : String
  leader_name : String
  leader_target : Int
  dice : List Int
  leader_dice : List Int
  leader_details : List String
  leader_successes : Int
  total_successes : Int
  crits : Int
  complications : Int
  helpers : List HelperResult
  passed : Bool
  excess_ap : Int
  actual_ap : Int
  total_count : Nat
  deriving Repr, DecidableEq

/-- Embedding of `dice._evaluate_check`.  Here `rolls` injects the random source: the call
`roll_dice(total_count, 20)` becomes `rolls.take total_count`.  The dice-pool
arithmetic, dice assignment (first 2 leader, next N helpers, rest AP dice to
the leader) and the leader-gate totaling mirror the source line by line. -/
def evaluate_check (s : GameState) (player_names : List String)
    (attr skill : String) (difficulty : Int) (ap_dice : Nat) (rolls : List Int) :
    CheckResult :=
  let participants := sortDesc (player_names.map (resolveParticipant s attr skill))
  let leader := participants.headD ⟨"", 0, 0, false, 0⟩
  let helpers := participants.tail
  let mode := if participants.length = 1 then "solo"
              else if participants.length = 2 then "assisted" else "group"
  let base_count := 2 + helpers.length
  let total_count := min 5 (base_count + ap_dice)
  let actual_ap := (total_count : Int) - (base_count : Int)
  let all_dice := rolls.take total_count
  let leader_dice := all_dice.take 2 ++ all_dice.drop base_count
  let helper_dice := (all_dice.drop 2).take helpers.length
  let lres := evalLeaderDice leader.target leader.tag leader.skill_val leader_dice
  let lsucc := lres.1
  let lcrit := lres.2.1
  let lcomp := lres.2.2.1
  let ldet := lres.2.2.2
  let contributed := 1 ≤ lsucc
  let hresAll := evalHelpers contributed (helpers.zip helper_dice)
  let hsucc := hresAll.1
  let hcrit := hresAll.2.1
  let hcomp := hresAll.2.2.1
  let hres := hresAll.2.2.2
  let total_successes := lsucc + hsucc
  let passed := difficulty ≤ total_successes
  let excess := if passed then max 0 (total_successes - difficulty) else 0
  { mode := mode
    leader_name := leader.name
    leader_target := leader.target
    dice := all_dice
    leader_dice := leader_dice
    leader_details := ldet
    leader_successes := lsucc
    total_successes := total_successes
    crits := lcrit + hcrit
    complications := lcomp + hcomp
    helpers := hres
    passed := passed
    excess_ap := excess
    actual_ap := actual_ap
    total_count := total_count }

/-- Embedding of `dice._find_leader_name`: linear scan keeping the first strictly-higher
target, starting from `best_target = -1`. -/
def find_leader_name (s : GameState) (player_names : List String)
    (attr skill : String) : String :=
  let step := fun (best : String × Int) (pn : String) =>
    let t := (resolveParticipant s attr skill pn).target
    if best.2 < t then (pn, t) else best
  (player_names.foldl step (player_names.headD "", -1)).1

/-- Structured command errors; each constructor stands for one
`return error(...)` site of `dice.cmd_check`, in source order. -/
inductive CheckError where
  | noPlayers : CheckError
  | playerNotFound : CheckError
  | invalidAttr : CheckError
  | invalidSkill : CheckError
  | negativeDifficulty : CheckError
  | apOutOfRange : CheckError
  | tooManyPlayers : CheckError
  | apOverCap : CheckError
  | insufficientAP : String → Int → Int → CheckError
  deriving Repr, DecidableEq

/-- The fallback player record used when looking up the auto-selected
leader; unreachable in practice because `cmd_check` validates every
participant name before the lookup. -/
def emptyPlayer : Player := ⟨0, 0, 0, 0, [], [], [], []⟩

/-- Embedding of `dice.cmd_check` after argument parsing: validation cascade, leader AP
deduction, evaluation, excess-AP credit, save.  An `.error` return models the
Python early `return error(...)`: nothing is mutated and nothing is saved.
`validate_attr` / `validate_skill` are modelled for canonical names
(membership in the fixed tables; the source additionally case-folds and
fuzzy-matches the raw strings). -/
def cmd_check (s : GameState) (player_names : List String) (attr skill : String)
    (difficulty ap_spend : Int) (rolls : List Int) :
    Except CheckError (GameState × CheckResult) :=
  if player_names.isEmpty then .error .noPlayers
  else if ¬ player_names.all (fun pn => (findPlayer s.players pn).isSome) then
    .error .playerNotFound
  else if ¬ SPECIAL_ATTRS.contains attr then .error .invalidAttr
  else if ¬ ALL_SKILLS.contains skill then .error .invalidSkill
  else if difficulty < 0 then .error .negativeDifficulty
  else if ap_spend < 0 ∨ 3 < ap_spend then .error .apOutOfRange
  else if 5 < (player_names.length : Int) + 1 then .error .tooManyPlayers
  else if 5 - ((player_names.length : Int) + 1) < ap_spend then .error .apOverCap
  else
    let leader_name := find_leader_name s player_names attr skill
    let leader := (findPlayer s.players leader_name).getD emptyPlayer
    let original_ap := leader.ap
    if 0 < ap_spend ∧ original_ap < ap_spend then
      .error (.insufficientAP leader_name original_ap ap_spend)
    else
      let r := evaluate_check s player_names attr skill difficulty ap_spend.toNat rolls
      let leader' := { leader with ap := original_ap - ap_spend + r.excess_ap }
      let s' := { s with players := setPlayer s.players leader_name leader' }
      .ok (s', r)

/-! ## Turn state machine (`world.py`, `util.py` mode helpers) -/

/-- Embedding of `util.exit_combat`: no-op when already exploring, otherwise reset to
exploration.  The returned flag models the `mode_changed` payload. -/
def exit_combat (s : GameState) : GameState × Option (String × String) :=
  if s.mode = "exploration" then (s, none)
  else ({ s with mode := "exploration", combat_round := 0, turn_actions := [] },
        some ("combat", "exploration"))

/-- Embedding of `util.enter_combat`: the symmetric transition into combat. -/
def enter_combat (s : GameState) : GameState × Option (String × String) :=
  if s.mode = "combat" then (s, none)
  else ({ s with mode := "combat", combat_round := 0, turn_actions := [] },
        some ("exploration", "combat"))

/-- The per-player effect scan of `world._tick_effects`: permanent effects
(`remaining == -1`) are kept untouched, effects with `remaining > 1` are
decremented and kept, everything else expires.  Returns the surviving list
and the expired effect names in source order. -/
def tickEffectList : List Effect → List Effect × List String
  | [] => ([], [])
  | e :: es =>
    let (keep, exp) := tickEffectList es
    if e.remaining = -1 then (e :: keep, exp)
    else if 1 < e.remaining then ({ e with remaining := e.remaining - 1 } :: keep, exp)
    else (keep, e.name :: exp)

/-- Embedding of `world._tick_effects` over the whole player dict: ticked players, the
expired `(player, effect)` report list, and the resulting deaths (an
`Incapacitated` effect expiring while the player's hp is still ≤ 0). -/
def tick_effects (ps : List (String × Player)) :
    List (String × Player) × List (String × String) × List String :=
  let ticked := ps.map (fun kv => (kv.1, { kv.2 with status_effects := (tickEffectList kv.2.status_effects).1 }))
  let expired := ps.foldr
    (fun kv acc => ((tickEffectList kv.2.status_effects).2.map (fun n => (kv.1, n))) ++ acc) []
  let deaths := (expired.filter
    (fun en => en.2 == "Incapacitated" &&
      (match findPlayer ticked en.1 with
       | some p => decide (p.hp ≤ 0)
       | none => false))).map (fun en => en.1)
  (ticked, expired, deaths)

/-- One row of `data.WEATHER_TABLE` (the fields the turn logic reads). -/
structure WeatherEntry where
  weather : String
  weight : Int
  deriving Repr, DecidableEq

/-- The table `data.WEATHER_TABLE`, names and weights (the flavor strings carried next
to them are not read by the logic). -/
def WEATHER_TABLE : List WeatherEntry :=
  [⟨"Clear", 20⟩, ⟨"Overcast", 15⟩, ⟨"Cloudy", 15⟩, ⟨"Light Rain", 10⟩,
   ⟨"Heavy Rain", 5⟩, ⟨"Dusty", 8⟩, ⟨"Dust Storm", 3⟩, ⟨"Dense Fog", 8⟩,
   ⟨"Rad Storm", 3⟩, ⟨"Scorching Heat", 5⟩, ⟨"Bitter Cold", 3⟩, ⟨"Light Breeze", 5⟩]

/-- The cumulative-weight walk of `_exploration_turn`'s weather pick: the
first entry whose running total reaches the roll wins; a roll beyond the
total keeps the first entry (the loop's initial `chosen`). -/
def pickWeatherFrom (dflt : WeatherEntry) (roll : Int) :
    List WeatherEntry → Int → WeatherEntry
  | [], _ => dflt
  | w :: ws, cum => if roll ≤ cum + w.weight then w else pickWeatherFrom dflt roll ws (cum + w.weight)

/-- Weather selection for a given d100-style roll over `WEATHER_TABLE`. -/
def pickWeather (roll : Int) : WeatherEntry :=
  pickWeatherFrom ⟨"Clear", 20⟩ roll WEATHER_TABLE 0

/-- The 8-step `times` cycle of `world._exploration_turn`. -/
def TIMES : List String :=
  ["Early Morning", "Morning", "Noon", "Afternoon", "Evening", "Night",
   "Late Night", "Pre-Dawn"]

/-- Embedding of `times.index(current) if current in times else 0`. -/
def timeIndex (t : String) : Nat := (TIMES.indexOf? t).getD 0

/-- Injected random draws for one exploration turn: the weather d100, the
10% event-chance d100 and the event-type d100 (the flavor-text choice inside
each event pool is not modelled). -/
structure ExplorationRand where
  weatherRoll : Int
  eventChanceRoll : Int
  eventTypeRoll : Int
  deriving Repr, DecidableEq

/-- The report payload of `world._exploration_turn` (the fields the claims
read). -/
structure ExplorationOut where
  turn : Int
  time_of_day : String
  weather_changed : Option String
  deaths : List String
  expired_effects : List (String × String)
  enemies_cleared : List String
  random_event_type : Option String
  deriving Repr, DecidableEq

/-- Embedding of `world._exploration_turn`: increment `turn`, advance the time-of-day
cycle, re-roll weather on a new day (new time = "Early Morning"), tick
effects, purge dead enemies, possibly roll a random flavor event, reset
`turn_actions`. -/
def exploration_turn (s : GameState) (r : ExplorationRand) :
    GameState × ExplorationOut :=
  let turn' := s.turn + 1
  let new_time := (TIMES.get? ((timeIndex s.time_of_day + 1) % TIMES.length)).getD "Early Morning"
  let weather_changed :=
    if new_time = "Early Morning" then some (pickWeather r.weatherRoll).weather else none
  let weather' := (weather_changed).getD s.weather
  let tick := tick_effects s.players
  let players' := tick.1
  let expired := tick.2.1
  let deaths := tick.2.2
  let cleared := (s.enemies.filter (fun kv => kv.2.status == "dead")).map (fun kv => kv.1)
  let enemies' := s.enemies.filter (fun kv => ¬ kv.2.status == "dead")
  let alive := enemies'.filter (fun kv => kv.2.status == "alive")
  let event :=
    if alive.isEmpty ∧ r.eventChanceRoll ≤ 10 then
      some (if r.eventTypeRoll ≤ 70 then "encounter"
            else if r.eventTypeRoll ≤ 85 then "atmospheric" else "quest_hook")
    else none
  let s' := { s with turn := turn', time_of_day := new_time, weather := weather',
                     players := players', enemies := enemies', turn_actions := [] }
  (s', ⟨turn', new_time, weather_changed, deaths, expired, cleared, event⟩)

/-- The report payload of `world._combat_turn`. -/
structure CombatOut where
  combat_round : Int
  turn : Int
  deaths : List String
  expired_effects : List (String × String)
  enemies_cleared : List String
  mode_changed : Option (String × String)
  deriving Repr, DecidableEq

/-- Embedding of `world._combat_turn`: increment `combat_round` only, tick effects, purge
dead enemies, auto-`exit_combat` when no enemy remains alive, reset
`turn_actions`.  Time, weather and `turn` are untouched. -/
def combat_turn (s : GameState) : GameState × CombatOut :=
  let round' := s.combat_round + 1
  let tick := tick_effects s.players
  let players' := tick.1
  let expired := tick.2.1
  let deaths := tick.2.2
  let cleared := (s.enemies.filter (fun kv => kv.2.status == "dead")).map (fun kv => kv.1)
  let enemies' := s.enemies.filter (fun kv => ¬ kv.2.status == "dead")
  let alive := enemies'.filter (fun kv => kv.2.status == "alive")
  let s1 := { s with combat_round := round', players := players', enemies := enemies' }
  let step := if alive.isEmpty then exit_combat s1 else (s1, none)
  let s3 := { step.1 with turn_actions := [] }
  (s3, ⟨round', s.turn, deaths, expired, cleared, step.2⟩)

/-! ## Encounter budget gate (`enemy.py`, `data.py`) -/

/-- One row of `data.ENEMY_TEMPLATES`. -/
structure EnemyTemplate where
  tier : Int
  hp : Int
  damage : String
  attack_skill : Int
  drops : String
  special : String
  deriving Repr, DecidableEq

/-- The table `data.ENEMY_TEMPLATES`. -/
def ENEMY_TEMPLATES : List (String × EnemyTemplate) :=
  [("Radroach",              ⟨1, 10,  "1d6", 8,  "junk", ""⟩),
   ("Bloatfly",              ⟨1, 10,  "1d6", 6,  "junk", "Poison spit"⟩),
   ("Mole Rat",              ⟨1, 15,  "2d6", 10, "junk", "Burrow ambush"⟩),
   ("Wild Dog",              ⟨1, 15,  "2d6", 12, "junk", "Pack tactics"⟩),
   ("Feral Ghoul",           ⟨2, 20,  "2d6", 12, "common", "Radiation immunity"⟩),
   ("Raider",                ⟨2, 25,  "3d6", 10, "common", ""⟩),
   ("Raider Psycho",         ⟨2, 25,  "3d6", 12, "common", "Berserk (ignores pain)"⟩),
   ("Mirelurk Hatchling",    ⟨2, 15,  "2d6", 10, "common", "Shell armor"⟩),
   ("Super Mutant",          ⟨3, 40,  "4d6", 12, "uncommon", "Radiation immunity"⟩),
   ("Raider Veteran",        ⟨3, 35,  "3d6", 14, "common", ""⟩),
   ("Feral Ghoul Reaver",    ⟨3, 35,  "3d6", 14, "uncommon", "Radiation immunity, radiation attack"⟩),
   ("Yao Guai",              ⟨3, 45,  "4d6", 12, "uncommon", "Charge attack"⟩),
   ("Mirelurk",              ⟨3, 35,  "3d6", 12, "uncommon", "Shell armor"⟩),
   ("Deathclaw",             ⟨4, 60,  "5d6", 14, "rare", "Armor piercing"⟩),
   ("Assaultron",            ⟨4, 50,  "4d6", 16, "rare", "Laser head attack"⟩),
   ("Sentry Bot",            ⟨4, 70,  "5d6", 14, "rare", "Heavy armor, self-destruct"⟩),
   ("Super Mutant Behemoth", ⟨4, 80,  "6d6", 12, "rare", "AoE attacks"⟩),
   ("Mirelurk Queen",        ⟨4, 100, "6d6", 14, "unique", "Acid spit, spawn hatchlings"⟩),
   ("Legendary Deathclaw",   ⟨5, 90,  "6d6", 16, "unique", "Regeneration, armor piercing"⟩),
   ("Legendary Assaultron",  ⟨5, 70,  "5d6", 18, "unique", "Stealth, laser head attack"⟩)]

/-- One chapter row of `data.ENCOUNTER_RULES`. -/
structure EncounterRule where
  max_tier : Int
  hp_budget : Int
  safe_turns : Int
  deriving Repr, DecidableEq

/-- The table `data.ENCOUNTER_RULES`, chapters 1–6. -/
def ENCOUNTER_RULES : List (Int × EncounterRule) :=
  [(1, ⟨1, 30, 2⟩), (2, ⟨2, 60, 1⟩), (3, ⟨2, 80, 1⟩),
   (4, ⟨3, 120, 0⟩), (5, ⟨4, 180, 0⟩), (6, ⟨5, 250, 0⟩)]

/-- Embedding of `ENCOUNTER_RULES.get(chapter, ENCOUNTER_RULES[min(chapter, 6)])`:
chapters beyond the table clamp to chapter 6's rule. -/
def encounterRule (chapter : Int) : EncounterRule :=
  match ENCOUNTER_RULES.find? (fun kv => kv.1 == chapter) with
  | some kv => kv.2
  | none =>
    match ENCOUNTER_RULES.find? (fun kv => kv.1 == min chapter 6) with
    | some kv => kv.2
    | none => ⟨1, 30, 2⟩

/-- Embedding of `data.hp_to_tier`: the HP → tier banding for custom enemies. -/
def hp_to_tier (hp : Int) : Int :=
  if hp ≤ 15 then 1
  else if hp ≤ 25 then 2
  else if hp ≤ 45 then 3
  else if hp ≤ 80 then 4
  else 5

/-- Embedding of `enemy._find_template`, restricted to canonically-cased names (the
source compares lowercased strings). -/
def find_template (n : String) : Option EnemyTemplate :=
  match ENEMY_TEMPLATES.find? (fun kv => kv.1 == n) with
  | some kv => some kv.2
  | none => none

/-- Structured errors of `enemy.cmd_enemy_add`, one constructor per
`return error(...)` site of the validation chain. -/
inductive EnemyAddError where
  | unknownTemplate : EnemyAddError
  | tierExceeded : Int → Int → Int → EnemyAddError
  | protectionPeriod : EnemyAddError
  | countLimit : EnemyAddError
  | budgetExceeded : EnemyAddError
  deriving Repr, DecidableEq

/-- Enemy-dict update, position-preserving like a Python dict. -/
def setEnemy : List (String × Enemy) → String → Enemy → List (String × Enemy)
  | [], k, v => [(k, v)]
  | (k', v') :: rest, k, v =>
    if k' == k then (k, v) :: rest else (k', v') :: setEnemy rest k v

/-- The encounter-budget validation and insertion of `enemy.cmd_enemy_add`,
for the single-argument template form (`enemy-add <template>`).  The
effective HP budget `int(base * (1 + 0.5 * (player_count - 1)))` is computed
as `base * (player_count + 1) / 2` with integer division, which agrees with
the float expression on these table values. -/
def enemy_add_template (s : GameState) (tname : String) :
    Except EnemyAddError GameState :=
  match find_template tname with
  | none => .error .unknownTemplate
  | some t =>
    let rules := encounterRule s.chapter
    let tier := t.tier
    if rules.max_tier < tier then
      .error (.tierExceeded tier s.chapter rules.max_tier)
    else
      let turns_in_chapter := s.turn - s.chapter_start_turn
      if 2 ≤ tier ∧ turns_in_chapter < rules.safe_turns then
        .error .protectionPeriod
      else
        let alive_enemies := (s.enemies.filter (fun kv => kv.2.status == "alive")).map (fun kv => kv.2)
        let alive_count := (alive_enemies.length : Int)
        let days_in_chapter := turns_in_chapter / 24
        let max_enemies : Option Int :=
          if days_in_chapter < 1 then some 1
          else if days_in_chapter < 2 then some 2
          else none
        let over_count :=
          match max_enemies with
          | some m => decide (m ≤ alive_count)
          | none => false
        if over_count then
          .error .countLimit
        else
          let player_count := max 1 (s.players.length : Int)
          let effective_budget := rules.hp_budget * (player_count + 1) / 2
          let alive_hp := (alive_enemies.map (fun e => e.hp)).sum
          if effective_budget - alive_hp < t.hp then
            .error .budgetExceeded
          else
            let newEnemy : Enemy := ⟨t.hp, t.hp, t.damage, t.attack_skill, t.drops, t.special, "alive"⟩
            .ok { s with enemies := setEnemy s.enemies tname newEnemy }

/-! ## Player damage (`player.py`) -/

/-- The report payload of `player._modify_hp` for the hurt path. -/
structure HurtOut where
  amount : Int
  hp_before : Int
  hp_after : Int
  damage_reduction : Int
  deriving Repr, DecidableEq

/-- Embedding of `player._modify_hp` with `negative=True` (the `hurt` command) after
argument parsing: status-effect damage reduction floored at 1 point of
damage, hp floored at 0, and the automatic add/remove of the
`Incapacitated` effect. -/
def hurt_player (p : Player) (amount : Int) : Player × HurtOut :=
  let dr := (p.status_effects.map (fun e => e.damage_reduction)).sum
  let amount' := if 0 < dr then max 1 (amount - dr) else amount
  let old_hp := p.hp
  let hp' := max 0 (p.hp - amount')
  let effects := p.status_effects
  let has_incap := effects.any (fun e => e.name == "Incapacitated")
  let effects1 :=
    if hp' ≤ 0 ∧ 0 < old_hp ∧ ¬ has_incap then
      effects ++ [⟨"Incapacitated", 3, [], 0⟩]
    else effects
  let effects2 :=
    if 0 < hp' ∧ has_incap then
      effects1.filter (fun e => ¬ e.name == "Incapacitated")
    else effects1
  ({ p with hp := hp', status_effects := effects2 },
   ⟨amount', old_hp, hp', dr⟩)

/-! ## Spec-side comparison definitions -/

/-- Spec-side rendering of the radiation rule: the deltas of the single
highest threshold among 1000/800/600/400/200 that the player's rads meet,
and no deltas below 200.  Compared against the source's first-match scan. -/
def radPenaltySpec (rads : Int) : List (String × Int) :=
  if 1000 ≤ rads then [("STR", -4), ("PER", -3), ("END", -4), ("AGI", -3), ("LCK", -3)]
  else if 800 ≤ rads then [("STR", -3), ("PER", -2), ("END", -3), ("AGI", -2)]
  else if 600 ≤ rads then [("STR", -2), ("PER", -1), ("END", -2), ("AGI", -1)]
  else if 400 ≤ rads then [("STR", -1), ("END", -1)]
  else if 200 ≤ rads then [("END", -1)]
  else []

/-- The source's first-match scan over the descending threshold table picks
exactly the highest tier met. -/
theorem selectRadPenalty_eq_spec (rads : Int) :
    selectRadPenalty rads = radPenaltySpec rads := by
  unfold selectRadPenalty RAD_PENALTIES radPenaltySpec
  by_cases h1 : 1000 ≤ rads
  · simp [List.find?, h1]
  by_cases h2 : 800 ≤ rads
  · simp [List.find?, h1, h2]
  by_cases h3 : 600 ≤ rads
  · simp [List.find?, h1, h2, h3]
  by_cases h4 : 400 ≤ rads
  · simp [List.find?, h1, h2, h3, h4]
  by_cases h5 : 200 ≤ rads
  · simp [List.find?, h1, h2, h3, h4, h5]
  · simp [List.find?, h1, h2, h3, h4, h5]

/-- The player dict after a command result: the saved state's players on
success, the untouched input players on an error return (the Python command
returns before `save_state` on every error path). -/
def players_after (s : GameState) (res : Except CheckError (GameState × CheckResult)) :
    List (String × Player) :=
  match res with
  | .ok (s', _) => s'.players
  | .error _ => s.players

/-! ## Sample data for concrete witnesses and counterexamples -/

/-- A sample player: PER 7, tag Lockpick at skill 2 (target 9 on
PER + Lockpick). -/
def jake : Player :=
  { hp := 50, max_hp := 50, rads := 0, ap := 0,
    special := [("STR", 4), ("PER", 7), ("END", 5), ("CHA", 4), ("INT", 8), ("AGI", 6), ("LCK", 6)],
    tag_skills := ["Science", "Lockpick", "Small Guns"],
    skills := [("Barter", 0), ("Lockpick", 2), ("Medicine", 0), ("Melee", 0), ("Repair", 0),
               ("Science", 2), ("Small Guns", 2), ("Sneak", 0), ("Speech", 0), ("Survival", 0)],
    status_effects := [] }

/-- A second sample player: PER 5, no Lockpick skill (target 5). -/
def sarah : Player :=
  { jake with
    special := [("STR", 5), ("PER", 5), ("END", 6), ("CHA", 6), ("INT", 6), ("AGI", 6), ("LCK", 6)],
    tag_skills := ["Medicine", "Speech", "Sneak"],
    skills := [("Barter", 0), ("Lockpick", 0), ("Medicine", 2), ("Melee", 0), ("Repair", 0),
               ("Science", 0), ("Small Guns", 0), ("Sneak", 2), ("Speech", 2), ("Survival", 0)] }

/-- Player `jake` at exactly 1000 rads. -/
def radJake : Player := { jake with rads := 1000 }

/-- A fresh two-player exploration state at chapter 1, turn 0 (the
`cmd_init` document with Jake and Sarah added). -/
def sampleState : GameState :=
  { chapter := 1, chapter_start_turn := 0, turn := 0, time_of_day := "Early Morning",
    weather := "Clear", mode := "exploration", combat_round := 0, turn_actions := [],
    players := [("Jake", jake), ("Sarah", sarah)], enemies := [] }

/-- A dead Radroach enemy record. -/
def deadRadroach : Enemy := ⟨0, 10, "1d6", 8, "junk", "", "dead"⟩

/-- A combat state whose only enemy is already dead. -/
def deadEnemyState : GameState :=
  { sampleState with
    mode := "combat"
    combat_round := 2
    enemies := [("Radroach", deadRadroach)]
    turn_actions := ["Jake"] }

/-- A fixed random-draw triple for exploration turns (weather roll 1,
event-chance roll 50, event-type roll 50). -/
def sampleRand : ExplorationRand := ⟨1, 50, 50⟩

/-- Player `jake` under a Med-X style effect granting damage reduction 2. -/
def medicatedJake : Player :=
  { jake with status_effects := [⟨"Pain Suppression", 3, [], 2⟩] }

/-! ## Claim theorems -/

/-- C4: per-die evaluation.  A natural 1 yields 2 successes and is a
critical; a natural 20 yields 0 successes and is a complication only; any
other die ≤ target yields 1 success, upgraded to 2 ("tag crit") exactly when
the skill is tagged and the die value is at most the raw skill level; any
other die > target yields 0 successes with no crit and no complication. -/
theorem evaluate_die_cases (d target : Int) (tag : Bool) (skill_val : Int) :
    (d = 1 →
      evaluate_die d target tag skill_val =
        ⟨2, true, false, toString d ++ " -> Critical Success (+2)"⟩)
    ∧ (d = 20 →
      evaluate_die d target tag skill_val =
        ⟨0, false, true, toString d ++ " -> Complication!"⟩)
    ∧ (d ≠ 1 → d ≠ 20 → d ≤ target →
      (evaluate_die d target tag skill_val).successes =
          (if tag ∧ d ≤ skill_val then 2 else 1)
        ∧ ((evaluate_die d target tag skill_val).is_crit = true ↔ (tag = true ∧ d ≤ skill_val))
        ∧ (evaluate_die d target tag skill_val).is_complication = false)
    ∧ (d ≠ 1 → d ≠ 20 → target < d →
      evaluate_die d target tag skill_val =
        ⟨0, false, false, toString d ++ " -> Failure"⟩) := by
  refine ⟨?_, ?_, ?_, ?_⟩
  · intro h; subst h; rfl
  · intro h; subst h; rfl
  · intro h1 h20 hle
    unfold evaluate_die
    rw [if_neg h1, if_neg h20, if_pos hle]
    by_cases htag : tag = true ∧ d ≤ skill_val
    · rw [if_pos htag, if_pos htag]
      simp [htag.1, htag.2]
    · rw [if_neg htag, if_neg htag]
      simp [htag]
  · intro h1 h20 hgt
    unfold evaluate_die
    rw [if_neg h1, if_neg h20, if_neg (by omega)]

/-- C4 witness: the four branches at concrete dice (1, 20, a tag-crit 2
against target 9 with skill 2, and a failing 15 against target 9). -/
theorem evaluate_die_cases_witness :
    evaluate_die 1 5 false 0 = ⟨2, true, false, toString (1 : Int) ++ " -> Critical Success (+2)"⟩
    ∧ evaluate_die 20 5 false 0 = ⟨0, false, true, toString (20 : Int) ++ " -> Complication!"⟩
    ∧ ((evaluate_die 2 9 true 2).successes = (if (true : Bool) ∧ (2 : Int) ≤ 2 then 2 else 1)
        ∧ ((evaluate_die 2 9 true 2).is_crit = true ↔ ((true : Bool) = true ∧ (2 : Int) ≤ 2))
        ∧ (evaluate_die 2 9 true 2).is_complication = false)
    ∧ evaluate_die 15 9 false 0 = ⟨0, false, false, toString (15 : Int) ++ " -> Failure"⟩ :=
  ⟨(evaluate_die_cases 1 5 false 0).1 rfl,
   (evaluate_die_cases 20 5 false 0).2.1 rfl,
   (evaluate_die_cases 2 9 true 2).2.2.1 (by decide) (by decide) (by decide),
   (evaluate_die_cases 15 9 false 0).2.2.2 (by decide) (by decide) (by decide)⟩

/-- C6: the effective-attribute projection applies exactly the single
highest radiation tier met (the spec-side `radPenaltySpec`), never a sum of
tiers, and every resulting attribute is clamped to [1, 10].  The projection
is a pure function of the player: the stored base `special` is untouched. -/
theorem effective_special_single_tier (p : Player) :
    get_effective_special p =
      clampAll (applyEffectMods (applyDeltas p.special (radPenaltySpec p.rads)) p.status_effects)
    ∧ ∀ kv ∈ get_effective_special p, 1 ≤ kv.2 ∧ kv.2 ≤ 10 := by
  constructor
  · unfold get_effective_special
    rw [selectRadPenalty_eq_spec]
  · intro kv hkv
    unfold get_effective_special clampAll at hkv
    simp only [List.mem_map] at hkv
    obtain ⟨a, _, ha⟩ := hkv
    rw [← ha]
    constructor
    · exact le_max_left _ _
    · simp only []
      omega

/-- C6 witness: Jake at exactly 1000 rads gets only the ≥1000 tier (his
STR 4 − 4 clamps to 1), and the clamp bounds hold for that entry. -/
theorem effective_special_single_tier_witness :
    get_effective_special radJake =
      clampAll (applyEffectMods (applyDeltas radJake.special (radPenaltySpec radJake.rads))
        radJake.status_effects)
    ∧ 1 ≤ (("STR", (1 : Int))).2 ∧ (("STR", (1 : Int))).2 ≤ 10 :=
  ⟨(effective_special_single_tier radJake).1,
   ((effective_special_single_tier radJake).2 ("STR", 1) (by decide)).1,
   ((effective_special_single_tier radJake).2 ("STR", 1) (by decide)).2⟩

/-- C8: a status effect with `remaining = 3` survives the first two ticks
with decremented counters, expires (and is reported) on the third, and is
absent afterwards; a `remaining = -1` effect survives any number of ticks
unchanged.  Both the exploration advance and the combat advance transform
every player's effect list by exactly this tick function. -/
theorem effect_three_turn_lifecycle (nm : String) (mods : List (String × Int)) (dr : Int) :
    tickEffectList [⟨nm, 3, mods, dr⟩] = ([⟨nm, 2, mods, dr⟩], [])
    ∧ tickEffectList [⟨nm, 2, mods, dr⟩] = ([⟨nm, 1, mods, dr⟩], [])
    ∧ tickEffectList [⟨nm, 1, mods, dr⟩] = ([], [nm])
    ∧ (∀ n : Nat,
        (fun l => (tickEffectList l).1)^[n] [⟨nm, -1, mods, dr⟩] = [⟨nm, -1, mods, dr⟩])
    ∧ (∀ s : GameState,
        (combat_turn s).1.players.map (fun kv => (kv.1, kv.2.status_effects))
          = s.players.map (fun kv => (kv.1, (tickEffectList kv.2.status_effects).1)))
    ∧ (∀ (s : GameState) (r : ExplorationRand),
        (exploration_turn s r).1.players.map (fun kv => (kv.1, kv.2.status_effects))
          = s.players.map (fun kv => (kv.1, (tickEffectList kv.2.status_effects).1))) := by
  refine ⟨?_, ?_, ?_, ?_, ?_, ?_⟩
  · norm_num [tickEffectList]
  · norm_num [tickEffectList]
  · norm_num [tickEffectList]
  · intro n
    induction n with
    | zero => rfl
    | succ k ih =>
      rw [Function.iterate_succ_apply]
      norm_num [tickEffectList]
      exact ih
  · intro s
    unfold combat_turn tick_effects exit_combat
    dsimp only
    split <;> (try split) <;> simp [List.map_map, Function.comp]
  · intro s r
    unfold exploration_turn tick_effects
    simp [List.map_map, Function.comp]

/-- C10 (implicit): on a `hurt` against a player whose active effects carry
total damage reduction R > 0, the applied damage is `max 1 (amount − R)` —
reduction can never lower a positive hit to 0 — so with positive requested
amount the hp still drops by at least 1 until the 0 floor. -/
theorem hurt_damage_reduction_floor (p : Player) (amount : Int)
    (hR : 0 < (p.status_effects.map (fun e => e.damage_reduction)).sum)
    (ha : 0 < amount) :
    (hurt_player p amount).2.amount
        = max 1 (amount - (p.status_effects.map (fun e => e.damage_reduction)).sum)
    ∧ (hurt_player p amount).1.hp
        = max 0 (p.hp - max 1 (amount - (p.status_effects.map (fun e => e.damage_reduction)).sum))
    ∧ (0 < p.hp → (hurt_player p amount).1.hp < p.hp) := by
  simp only [hurt_player]
  rw [if_pos hR]
  refine ⟨rfl, rfl, ?_⟩
  intro hhp
  omega

/-- C10 witness: Jake under Med-X (damage reduction 2) hurt for 1 still
loses 1 hp. -/
theorem hurt_damage_reduction_floor_witness :
    (hurt_player medicatedJake 1).2.amount
        = max 1 (1 - (medicatedJake.status_effects.map (fun e => e.damage_reduction)).sum)
    ∧ (hurt_player medicatedJake 1).1.hp
        = max 0 (medicatedJake.hp
            - max 1 (1 - (medicatedJake.status_effects.map (fun e => e.damage_reduction)).sum))
    ∧ (hurt_player medicatedJake 1).1.hp < medicatedJake.hp :=
  ⟨(hurt_damage_reduction_floor medicatedJake 1 (by decide) (by decide)).1,
   (hurt_damage_reduction_floor medicatedJake 1 (by decide) (by decide)).2.1,
   (hurt_damage_reduction_floor medicatedJake 1 (by decide) (by decide)).2.2 (by decide)⟩

/-- C7: when the mode is combat and every remaining enemy is dead, the next
turn advance exits combat — mode becomes exploration, `combat_round` resets
to 0, `turn_actions` is cleared — and the transition is reported in the
output. -/
theorem combat_auto_exit (s : GameState)
    (hmode : s.mode = "combat")
    (hdead : ∀ kv ∈ s.enemies, kv.2.status = "dead") :
    (combat_turn s).1.mode = "exploration"
    ∧ (combat_turn s).1.combat_round = 0
    ∧ (combat_turn s).1.turn_actions = []
    ∧ (combat_turn s).2.mode_changed = some ("combat", "exploration") := by
  have hfilter : s.enemies.filter (fun kv => ¬ kv.2.status == "dead") = [] := by
    rw [List.filter_eq_nil_iff]
    intro kv hkv
    simp [hdead kv hkv]
  unfold combat_turn exit_combat
  dsimp only
  rw [hfilter]
  simp [hmode]

/-- C7 witness: a combat state whose sole enemy is dead exits combat on the
next advance. -/
theorem combat_auto_exit_witness :
    (combat_turn deadEnemyState).1.mode = "exploration"
    ∧ (combat_turn deadEnemyState).1.combat_round = 0
    ∧ (combat_turn deadEnemyState).1.turn_actions = []
    ∧ (combat_turn deadEnemyState).2.mode_changed = some ("combat", "exploration") :=
  combat_auto_exit deadEnemyState (by decide) (by decide)

/-- C9: at turn 0 of chapter 1 (rule: max_tier 1, hp_budget 30,
safe_turns 2) with no alive enemies, adding the Radroach template (tier 1,
hp 10) succeeds and inserts the enemy, while adding the Super Mutant
template (tier 3) is rejected with the tier-ceiling reason and returns no
state (the enemies map is untouched). -/
theorem enemy_add_chapter1_gate :
    enemy_add_template sampleState "Radroach"
      = .ok { sampleState with enemies := [("Radroach", ⟨10, 10, "1d6", 8, "junk", "", "alive"⟩)] }
    ∧ enemy_add_template sampleState "Super Mutant" = .error (.tierExceeded 3 1 1) := by
  constructor
  · rfl
  · rfl

/-- C3 counterexample: from the fresh state (turn 0, "Early Morning"),
`time_of_day` changes on the first advance and again on the second —
consecutive turns — so it does not move "only on every 3rd turn". -/
theorem exploration_time_moves_every_turn_cex :
    (exploration_turn sampleState sampleRand).1.turn = sampleState.turn + 1
    ∧ (exploration_turn sampleState sampleRand).1.time_of_day ≠ sampleState.time_of_day
    ∧ (exploration_turn (exploration_turn sampleState sampleRand).1 sampleRand).1.time_of_day
        ≠ (exploration_turn sampleState sampleRand).1.time_of_day := by
  refine ⟨rfl, by decide, by decide⟩

/-- C3 amended: every exploration advance increments `turn` by 1 and moves
`time_of_day` one step along the 8-step cycle (so it changes on every
advance, not only every 3rd); weather is re-rolled from the weighted table
exactly when the cycle wraps back to "Early Morning", and is untouched
otherwise. -/
theorem exploration_turn_time_weather (s : GameState) (r : ExplorationRand)
    (ht : s.time_of_day ∈ TIMES) :
    (exploration_turn s r).1.turn = s.turn + 1
    ∧ (exploration_turn s r).1.time_of_day ≠ s.time_of_day
    ∧ ((exploration_turn s r).2.weather_changed.isSome
        ↔ (exploration_turn s r).1.time_of_day = "Early Morning")
    ∧ ((exploration_turn s r).1.time_of_day = "Early Morning" →
        (exploration_turn s r).1.weather = (pickWeather r.weatherRoll).weather
        ∧ (exploration_turn s r).2.weather_changed = some (pickWeather r.weatherRoll).weather)
    ∧ ((exploration_turn s r).1.time_of_day ≠ "Early Morning" →
        (exploration_turn s r).1.weather = s.weather
        ∧ (exploration_turn s r).2.weather_changed = none) := by
  simp only [TIMES, List.mem_cons, List.not_mem_nil, or_false] at ht
  rcases ht with h|h|h|h|h|h|h|h <;>
    simp +decide [exploration_turn, h, timeIndex, TIMES]

/-- C3 witness for the amended theorem: the first advance from the fresh
state moves "Early Morning" to "Morning" and leaves the weather alone. -/
theorem exploration_turn_time_weather_witness :
    (exploration_turn sampleState sampleRand).1.turn = sampleState.turn + 1
    ∧ (exploration_turn sampleState sampleRand).1.time_of_day ≠ sampleState.time_of_day
    ∧ ((exploration_turn sampleState sampleRand).2.weather_changed.isSome
        ↔ (exploration_turn sampleState sampleRand).1.time_of_day = "Early Morning")
    ∧ ((exploration_turn sampleState sampleRand).1.weather = sampleState.weather
        ∧ (exploration_turn sampleState sampleRand).2.weather_changed = none) :=
  ⟨(exploration_turn_time_weather sampleState sampleRand (by decide)).1,
   (exploration_turn_time_weather sampleState sampleRand (by decide)).2.1,
   (exploration_turn_time_weather sampleState sampleRand (by decide)).2.2.1,
   (exploration_turn_time_weather sampleState sampleRand (by decide)).2.2.2.2 (by decide)⟩

/-- C2 counterexample: a 2-player check with apSpend 3 (pool 3 + 3 = 6 > 5)
is rejected by `cmd_check` with an over-cap error — the request does not
proceed with a truncated 5-die pool. -/
theorem check_ap_over_cap_cex :
    cmd_check sampleState ["Jake", "Sarah"] "PER" "Lockpick" 1 3 [] = .error .apOverCap := by
  rfl

/-- C2 amended: every check request whose apSpend (in [0,3]) would push the
dice pool past the 5-die cap is rejected with an error before any dice are
consumed — the truncation `actual_ap = total − base` inside
`_evaluate_check` is unreachable from the command for such requests. -/
theorem check_ap_over_cap_rejected (s : GameState) (names : List String)
    (attr skill : String) (diff ap : Int) (rolls : List Int)
    (h0 : 0 ≤ ap) (h3 : ap ≤ 3) (hcap : 5 < (names.length : Int) + 1 + ap) :
    ∃ e, cmd_check s names attr skill diff ap rolls = .error e := by
  unfold cmd_check
  by_cases c1 : names.isEmpty = true
  · rw [if_pos c1]; exact ⟨_, rfl⟩
  rw [if_neg c1]
  by_cases c2 : ¬ names.all (fun pn => (findPlayer s.players pn).isSome) = true
  · rw [if_pos c2]; exact ⟨_, rfl⟩
  rw [if_neg c2]
  by_cases c3 : ¬ SPECIAL_ATTRS.contains attr = true
  · rw [if_pos c3]; exact ⟨_, rfl⟩
  rw [if_neg c3]
  by_cases c4 : ¬ ALL_SKILLS.contains skill = true
  · rw [if_pos c4]; exact ⟨_, rfl⟩
  rw [if_neg c4]
  by_cases c5 : diff < 0
  · rw [if_pos c5]; exact ⟨_, rfl⟩
  rw [if_neg c5]
  by_cases c6 : ap < 0 ∨ 3 < ap
  · rw [if_pos c6]; exact ⟨_, rfl⟩
  rw [if_neg c6]
  by_cases c7 : 5 < (names.length : Int) + 1
  · rw [if_pos c7]; exact ⟨_, rfl⟩
  rw [if_neg c7]
  by_cases c8 : 5 - ((names.length : Int) + 1) < ap
  · rw [if_pos c8]; exact ⟨_, rfl⟩
  omega

/-- C2 amended witness: the concrete over-cap request is rejected. -/
theorem check_ap_over_cap_rejected_witness :
    ∃ e, cmd_check sampleState ["Jake", "Sarah"] "PER" "Lockpick" 1 3 [] = .error e :=
  check_ap_over_cap_rejected sampleState ["Jake", "Sarah"] "PER" "Lockpick" 1 3 []
    (by decide) (by decide) (by decide)

/-- A dict update at one key leaves every other key's lookup unchanged. -/
theorem findPlayer_setPlayer_ne (ps : List (String × Player)) (k k' : String)
    (v : Player) (h : k ≠ k') :
    findPlayer (setPlayer ps k' v) k = findPlayer ps k := by
  have hkk : (k' == k) = false := beq_eq_false_iff_ne.mpr (Ne.symm h)
  induction ps with
  | nil =>
    simp [setPlayer, findPlayer, List.find?, hkk]
  | cons a ps ih =>
    by_cases hk : a.1 = k'
    · have hne : (a.1 == k) = false := by
        simp [hk]
        exact fun q => h q.symm
      simp [setPlayer, findPlayer, List.find?, hk, hne]
      have : (k' == k) = false := by
        simp
        exact fun q => h q.symm
      simp [this]
    · simp only [setPlayer]
      rw [if_neg (by simpa using hk)]
      by_cases hak : a.1 = k
      · simp [findPlayer, List.find?, hak]
      · have h1 : (a.1 == k) = false := by simpa using hak
        simp only [findPlayer, List.find?, h1] at ih ⊢
        exact ih

/-- C5: with every earlier validation passing, a check with apSpend > 0
exceeding the auto-selected leader's current AP fails with the
insufficient-AP error no matter what dice would have been rolled (the
`rolls` input is arbitrary and unused), so no state is saved; and in every
invocation of the command — error or success — every player other than the
auto-selected leader is left exactly as before (helpers' AP is never
deducted). -/
theorem check_insufficient_ap :
    (∀ (s : GameState) (names : List String) (attr skill : String)
        (diff ap : Int) (rolls : List Int),
      names.isEmpty = false →
      names.all (fun pn => (findPlayer s.players pn).isSome) = true →
      SPECIAL_ATTRS.contains attr = true →
      ALL_SKILLS.contains skill = true →
      ¬ diff < 0 →
      ¬ (ap < 0 ∨ 3 < ap) →
      ¬ 5 < (names.length : Int) + 1 →
      ¬ 5 - ((names.length : Int) + 1) < ap →
      0 < ap →
      ((findPlayer s.players (find_leader_name s names attr skill)).getD emptyPlayer).ap < ap →
      cmd_check s names attr skill diff ap rolls
        = .error (.insufficientAP (find_leader_name s names attr skill)
            ((findPlayer s.players (find_leader_name s names attr skill)).getD emptyPlayer).ap
            ap))
    ∧ (∀ (s : GameState) (names : List String) (attr skill : String)
        (diff ap : Int) (rolls : List Int) (pn : String),
      pn ≠ find_leader_name s names attr skill →
      findPlayer (players_after s (cmd_check s names attr skill diff ap rolls)) pn
        = findPlayer s.players pn) := by
  constructor
  · intro s names attr skill diff ap rolls h1 h2 h3 h4 h5 h6 h7 h8 h9 h10
    unfold cmd_check
    rw [if_neg (by simp [h1]), if_neg (not_not_intro h2), if_neg (not_not_intro h3),
        if_neg (not_not_intro h4), if_neg h5, if_neg h6, if_neg h7, if_neg h8]
    dsimp only
    rw [if_pos ⟨h9, h10⟩]
  · intro s names attr skill diff ap rolls pn hpn
    unfold cmd_check
    by_cases c1 : names.isEmpty = true
    · rw [if_pos c1]; rfl
    rw [if_neg c1]
    by_cases c2 : ¬ names.all (fun q => (findPlayer s.players q).isSome) = true
    · rw [if_pos c2]; rfl
    rw [if_neg c2]
    by_cases c3 : ¬ SPECIAL_ATTRS.contains attr = true
    · rw [if_pos c3]; rfl
    rw [if_neg c3]
    by_cases c4 : ¬ ALL_SKILLS.contains skill = true
    · rw [if_pos c4]; rfl
    rw [if_neg c4]
    by_cases c5 : diff < 0
    · rw [if_pos c5]; rfl
    rw [if_neg c5]
    by_cases c6 : ap < 0 ∨ 3 < ap
    · rw [if_pos c6]; rfl
    rw [if_neg c6]
    by_cases c7 : 5 < (names.length : Int) + 1
    · rw [if_pos c7]; rfl
    rw [if_neg c7]
    by_cases c8 : 5 - ((names.length : Int) + 1) < ap
    · rw [if_pos c8]; rfl
    rw [if_neg c8]
    dsimp only
    by_cases c9 : 0 < ap ∧ ((findPlayer s.players (find_leader_name s names attr skill)).getD emptyPlayer).ap < ap
    · rw [if_pos c9]; rfl
    rw [if_neg c9]
    exact findPlayer_setPlayer_ne s.players pn (find_leader_name s names attr skill) _ hpn

/-- C5 witness: in the fresh state (both players at 0 AP) a Jake+Sarah check
requesting 1 AP fails with the insufficient-AP error, and a 0-AP run of the
same check leaves non-leader Sarah's record untouched. -/
theorem check_insufficient_ap_witness :
    cmd_check sampleState ["Jake", "Sarah"] "PER" "Lockpick" 1 1 [5, 6, 7]
      = .error (.insufficientAP
          (find_leader_name sampleState ["Jake", "Sarah"] "PER" "Lockpick")
          ((findPlayer sampleState.players
              (find_leader_name sampleState ["Jake", "Sarah"] "PER" "Lockpick")).getD
            emptyPlayer).ap
          1)
    ∧ findPlayer
        (players_after sampleState
          (cmd_check sampleState ["Jake", "Sarah"] "PER" "Lockpick" 1 0 [5, 6, 7]))
        "Sarah"
        = findPlayer sampleState.players "Sarah" :=
  ⟨check_insufficient_ap.1 sampleState ["Jake", "Sarah"] "PER" "Lockpick" 1 1 [5, 6, 7]
      (by decide) (by decide) (by decide) (by decide) (by decide) (by decide)
      (by decide) (by decide) (by decide) (by decide),
   check_insufficient_ap.2 sampleState ["Jake", "Sarah"] "PER" "Lockpick" 1 0 [5, 6, 7]
      "Sarah" (by decide)⟩

/-- The helper loop's running total adds exactly the sum of the reported
helper successes when the leader contributed, and nothing otherwise. -/
theorem evalHelpers_total (c : Bool) (l : List (Participant × Int)) :
    (evalHelpers c l).1 =
      if c then ((evalHelpers c l).2.2.2.map (fun h => h.successes)).sum else 0 := by
  induction l with
  | nil => cases c <;> simp [evalHelpers]
  | cons a l ih =>
    obtain ⟨h, d⟩ := a
    cases c with
    | true =>
      simp only [evalHelpers, List.map_cons, List.sum_cons, if_true] at ih ⊢
      omega
    | false =>
      simpa [evalHelpers] using ih

/-- The helper loop reports one entry per processed helper. -/
theorem evalHelpers_length (c : Bool) (l : List (Participant × Int)) :
    (evalHelpers c l).2.2.2.length = l.length := by
  induction l with
  | nil => rfl
  | cons a l ih =>
    obtain ⟨h, d⟩ := a
    simp only [evalHelpers, List.length_cons]
    omega

/-- Stable descending insertion preserves length. -/
theorem insertDesc_length (p : Participant) (l : List Participant) :
    (insertDesc p l).length = l.length + 1 := by
  induction l with
  | nil => rfl
  | cons q l ih =>
    unfold insertDesc
    split
    · simp [ih]
    · simp

/-- The stable descending sort preserves length. -/
theorem sortDesc_length (l : List Participant) :
    (sortDesc l).length = l.length := by
  induction l with
  | nil => rfl
  | cons p l ih => simp [sortDesc, insertDesc_length, ih]

/-- C1: in every check with at least one helper (and a pool within the
5-die cap so every helper gets a die), the reported total is the leader's
own successes plus the helpers' summed successes exactly when the leader
scored ≥ 1 success on their own dice, and the leader's successes alone
otherwise; the helper dice are reported either way (one entry per helper). -/
theorem check_leader_gate (s : GameState) (names : List String)
    (attr skill : String) (diff : Int) (ap : Nat) (rolls : List Int)
    (hmin : 2 ≤ names.length) (hmax : names.length ≤ 4)
    (hrolls : min 5 (names.length + 1 + ap) ≤ rolls.length) :
    (evaluate_check s names attr skill diff ap rolls).total_successes
      = (evaluate_check s names attr skill diff ap rolls).leader_successes
        + (if 1 ≤ (evaluate_check s names attr skill diff ap rolls).leader_successes
           then ((evaluate_check s names attr skill diff ap rolls).helpers.map
                  (fun h => h.successes)).sum
           else 0)
    ∧ (evaluate_check s names attr skill diff ap rolls).helpers.length
        = names.length - 1 := by
  unfold evaluate_check
  dsimp only
  have hplen : (sortDesc (names.map (resolveParticipant s attr skill))).length
      = names.length := by
    rw [sortDesc_length, List.length_map]
  have hhlen : (sortDesc (names.map (resolveParticipant s attr skill))).tail.length
      = names.length - 1 := by
    rw [List.length_tail, hplen]
  set helpers := (sortDesc (names.map (resolveParticipant s attr skill))).tail with hH
  have htc : 2 + helpers.length ≤ min 5 (2 + helpers.length + ap) := by omega
  have hall : (rolls.take (min 5 (2 + helpers.length + ap))).length
      = min 5 (2 + helpers.length + ap) := by
    rw [List.length_take]
    omega
  have hhd : (((rolls.take (min 5 (2 + helpers.length + ap))).drop 2).take helpers.length).length
      = helpers.length := by
    rw [List.length_take, List.length_drop, hall]
    omega
  have hzip : (helpers.zip
      (((rolls.take (min 5 (2 + helpers.length + ap))).drop 2).take helpers.length)).length
      = helpers.length := by
    rw [List.length_zip, hhd]
    omega
  constructor
  · rw [evalHelpers_total]
    by_cases hc : 1 ≤ (evalLeaderDice
        ((sortDesc (names.map (resolveParticipant s attr skill))).headD ⟨"", 0, 0, false, 0⟩).target
        ((sortDesc (names.map (resolveParticipant s attr skill))).headD ⟨"", 0, 0, false, 0⟩).tag
        ((sortDesc (names.map (resolveParticipant s attr skill))).headD ⟨"", 0, 0, false, 0⟩).skill_val
        ((rolls.take (min 5 (2 + helpers.length + ap))).take 2
          ++ (rolls.take (min 5 (2 + helpers.length + ap))).drop (2 + helpers.length))).1
    · simp [hc]
    · simp [hc]
  · rw [evalHelpers_length, hzip, hhlen]

/-- C1 witness: the assisted Jake+Sarah check on dice [15, 6, 3] — leader
Jake scores 1 success, Sarah's helper die succeeds and is counted. -/
theorem check_leader_gate_witness :
    (evaluate_check sampleState ["Jake", "Sarah"] "PER" "Lockpick" 1 0 [15, 6, 3]).total_successes
      = (evaluate_check sampleState ["Jake", "Sarah"] "PER" "Lockpick" 1 0 [15, 6, 3]).leader_successes
        + (if 1 ≤ (evaluate_check sampleState ["Jake", "Sarah"] "PER" "Lockpick" 1 0 [15, 6, 3]).leader_successes
           then ((evaluate_check sampleState ["Jake", "Sarah"] "PER" "Lockpick" 1 0 [15, 6, 3]).helpers.map
                  (fun h => h.successes)).sum
           else 0)
    ∧ (evaluate_check sampleState ["Jake", "Sarah"] "PER" "Lockpick" 1 0 [15, 6, 3]).helpers.length
        = (["Jake", "Sarah"] : List String).length - 1 :=
  check_leader_gate sampleState ["Jake", "Sarah"] "PER" "Lockpick" 1 0 [15, 6, 3]
    (by decide) (by decide) (by decide)

end Fallout
